import Mathlib

/-!
# Verification of the sp1 build-script helper (`src/helper/src/lib.rs`)

Shallow embedding of the helper crate: path resolution
(`get_absolute_dir_of_program`), rerun-trigger emission and metadata lookup
inside `build_program`, and the subprocess orchestration of
`execute_build_cmd` (skip condition, spawn, concurrent dual-stream relay,
join, wait).

Effectful Rust interactions (environment variables, `fs::canonicalize`,
`cargo_metadata` execution, process spawning, stream reads) are modelled as
explicit fields of an environment record; panics are modelled by an
`Outcome` type; the concurrent stdout/stderr relay is modelled by a trace
relation `ExecTrace` whose nondeterminism is exactly the interleaving of
the two per-stream relay sequences.
-/

namespace SP1Helper

/-- A filesystem path: an absolute/relative flag plus its components, the
shape `std::path::PathBuf` exposes through `is_relative` and `join`. -/
structure Path where
  isAbsolute : Bool
  components : List String
deriving DecidableEq, Repr

/-- `PathBuf::join`: an absolute right operand replaces the left one,
otherwise the components are appended. -/
def Path.join (p q : Path) : Path :=
  if q.isAbsolute then q
  else { isAbsolute := p.isAbsolute, components := p.components ++ q.components }

/-- Textual rendering of a path (`Display` of `PathBuf`), used only inside
diagnostic messages. -/
def Path.render (p : Path) : String :=
  (if p.isAbsolute then "/" else "") ++ String.intercalate "/" p.components

/-- `q` lies strictly below `p` in the directory tree. -/
def Path.descendantOf (q p : Path) : Prop :=
  q.isAbsolute = p.isAbsolute ∧ ∃ r, r ≠ [] ∧ q.components = p.components ++ r

/-- Result of running a piece of Rust code that may `panic!`. -/
inductive Outcome (α : Type) where
  | ok : α → Outcome α
  | panicked : String → Outcome α
deriving DecidableEq, Repr

/-- The panic message of `std::env::var("CARGO_MANIFEST_DIR").unwrap()`
when the variable is absent. -/
def envVarPanicMsg : String :=
  "called Result unwrap on an Err value: environment variable not found"

/-- The panic message of `metadata_cmd.exec().unwrap()` when the
`cargo metadata` invocation fails. -/
def metadataPanicMsg : String :=
  "called Result unwrap on an Err value: metadata command failed"

/-- Panic message of `line.unwrap()` on a failed stream read. -/
def lineUnwrapMsg (e : String) : String :=
  "called Result unwrap on an Err value: " ++ e

/-- Panic message of `stdout_handle.join().unwrap()` when the stdout drain
thread itself panicked. -/
def joinPanicMsg : String :=
  "called Result unwrap on an Err value: stdout thread panicked"

/-- `build_program`'s panic message when path resolution fails; it names
the ORIGINAL input path, not the resolved one. -/
def resolutionFailMsg (original : String) : String :=
  "Failed to get the absolute path of the program directory `" ++ original ++ "`."

/-- `build_program`'s panic message for spawn failure, wait failure or a
non-zero exit status; it names the display name. -/
def buildFailMsg (name : String) : String :=
  "Failed to build `" ++ name ++ "`."

/-- A line the spawned child produced on one of its streams:
`BufRead::lines` yields `io::Result<String>`. -/
abbrev StreamLine := Except String String

/-- The spawned subprocess: its two captured output streams and the result
`Child::wait` will deliver (`Ok code` or an I/O error). -/
structure Child where
  stdoutLines : List StreamLine
  stderrLines : List StreamLine
  waitResult : Except String Nat
deriving Repr

/-- Environment consumed by `execute_build_cmd`: the
`RUSTC_WORKSPACE_WRAPPER` variable and the outcome `Command::spawn` would
have (`Err` models a spawn failure such as a missing executable). -/
structure ExecEnv where
  rustcWorkspaceWrapper : Option String
  spawnResult : Except String Child

/-- `l₁` starts with the characters `l₀`. -/
def leadsWith : List Char → List Char → Bool
  | [], _ => true
  | _ :: _, [] => false
  | a :: as, b :: bs => a == b && leadsWith as bs

/-- `str::contains` on character lists. -/
def containsSub (needle : List Char) : List Char → Bool
  | [] => needle.isEmpty
  | b :: bs => leadsWith needle (b :: bs) || containsSub needle bs

/-- `env::var("RUSTC_WORKSPACE_WRAPPER").map(|v| v.contains("clippy-driver")).unwrap_or(false)`. -/
def isClippyDriver : Option String → Bool
  | none => false
  | some v => containsSub ("clippy-driver".data) v.data

/-- A line written by the helper itself to its own stdout, in cargo's
build-script directive protocol. -/
inductive Directive where
  | rerunIfChanged (p : Path)
  | warning (msg : String)
deriving DecidableEq, Repr

/-- The informational notice printed when the build is skipped because
clippy is driving the compilation. -/
def skipNotice : Directive :=
  Directive.warning "Skipping build due to clippy invocation."

/-- Is this directive a `cargo:rerun-if-changed` line? -/
def isRerunDirective : Directive → Bool
  | Directive.rerunIfChanged _ => true
  | Directive.warning _ => false

/-- The fixed relay tag: each relayed subprocess line is printed as
`"[sp1] " ++ line`. -/
def tagLine (s : String) : String := "[sp1] " ++ s

/-- Drain one stream line by line, `line.unwrap()`-ing each read: returns
the relayed (tagged) lines before the first read error, and the panic
message if a read error was hit. -/
def drainStream : List StreamLine → List String × Option String
  | [] => ([], none)
  | Except.error e :: _ => ([], some (lineUnwrapMsg e))
  | Except.ok l :: rest =>
    let r := drainStream rest
    (tagLine l :: r.1, r.2)

/-- What `execute_build_cmd` returns (or how it dies), viewed from the
calling thread: `retErr` models returning `Err(io::Error)` (spawn or wait
failure), `retOk code` models `Ok(status)`, `panicked` a panic. -/
inductive ExecBehavior where
  | retErr (e : String)
  | retOk (code : Nat)
  | panicked (msg : String)
deriving DecidableEq, Repr

/-- Observable result of `execute_build_cmd`: helper-printed directives and
the call's behavior. -/
structure ExecResult where
  printed : List Directive
  behavior : ExecBehavior
deriving DecidableEq, Repr

/-- `execute_build_cmd` of `src/helper/src/lib.rs`: check the clippy skip
condition; spawn; drain stderr on the calling thread (panicking at the
first read error), join the stdout drain thread (re-panicking if it
panicked), then wait exactly once and return the wait's result. -/
def execute_build_cmd (env : ExecEnv) : ExecResult :=
  if isClippyDriver env.rustcWorkspaceWrapper then
    { printed := [skipNotice], behavior := ExecBehavior.retOk 0 }
  else
    match env.spawnResult with
    | Except.error e => { printed := [], behavior := ExecBehavior.retErr e }
    | Except.ok c =>
      match (drainStream c.stderrLines).2 with
      | some m => { printed := [], behavior := ExecBehavior.panicked m }
      | none =>
        match (drainStream c.stdoutLines).2 with
        | some _ => { printed := [], behavior := ExecBehavior.panicked joinPanicMsg }
        | none =>
          match c.waitResult with
          | Except.error e => { printed := [], behavior := ExecBehavior.retErr e }
          | Except.ok code => { printed := [], behavior := ExecBehavior.retOk code }

/-- Environment consumed by `build_program`: the `CARGO_MANIFEST_DIR`
variable, the filesystem's `canonicalize` (`none` = failure), the
`cargo_metadata` execution (`none` = command failure, `some nameOpt` =
success with the optional root-package name), the subprocess environment,
and the current local time rendered by `current_datetime`. -/
structure BuildEnv where
  cargoManifestDir : Option Path
  canonicalize : Path → Option Path
  metadataExec : Path → Option (Option String)
  exec : ExecEnv
  now : String

/-- `current_datetime`: the formatted local time (pure input of the model). -/
def current_datetime (env : BuildEnv) : String := env.now

/-- `current_dir`: `PathBuf::from(env::var("CARGO_MANIFEST_DIR").unwrap())` —
panics when the variable is unset. -/
def current_dir (env : BuildEnv) : Outcome Path :=
  match env.cargoManifestDir with
  | none => Outcome.panicked envVarPanicMsg
  | some p => Outcome.ok p

/-- `get_absolute_dir_of_program`: canonicalize the input, joined onto the
anchor root (`current_dir`) first when it is relative. `ok none` models a
canonicalization failure returned as `Err(io::Error)`. -/
def get_absolute_dir_of_program (env : BuildEnv) (path : Path) : Outcome (Option Path) :=
  if path.isAbsolute then Outcome.ok (env.canonicalize path)
  else
    match current_dir env with
    | Outcome.panicked m => Outcome.panicked m
    | Outcome.ok root => Outcome.ok (env.canonicalize (Path.join root path))

/-- The relative path `"src"` joined below the program directory. -/
def srcRel : Path := { isAbsolute := false, components := ["src"] }

/-- The relative path `"Cargo.toml"`. -/
def manifestRel : Path := { isAbsolute := false, components := ["Cargo.toml"] }

/-- The relative path `"Cargo.lock"`. -/
def lockRel : Path := { isAbsolute := false, components := ["Cargo.lock"] }

/-- The three rerun-trigger paths emitted for a resolved program dir. -/
def rerunTriggerPaths (dir : Path) : List Path :=
  [Path.join dir srcRel, Path.join dir manifestRel, Path.join dir lockRel]

/-- Observable result of `build_program`: every directive the helper
printed to its own stdout (in order) and the call's outcome. -/
structure BuildResult where
  printed : List Directive
  outcome : Outcome Unit

/-- `build_program` of `src/helper/src/lib.rs`: resolve the program dir
(panicking with `resolutionFailMsg` on failure), emit the three
rerun-trigger directives, run `cargo metadata` (`.unwrap()` — a command
failure panics; a missing root package falls back to `"Program"`), print
the built-at warning, then run `execute_build_cmd` and panic with
`buildFailMsg` on an `Err` return or a non-zero exit status. -/
def build_program (env : BuildEnv) (path : Path) : BuildResult :=
  match get_absolute_dir_of_program env path with
  | Outcome.panicked m => { printed := [], outcome := Outcome.panicked m }
  | Outcome.ok none =>
    { printed := [], outcome := Outcome.panicked (resolutionFailMsg path.render) }
  | Outcome.ok (some dir) =>
    let directives := (rerunTriggerPaths dir).map Directive.rerunIfChanged
    match env.metadataExec (Path.join dir manifestRel) with
    | none => { printed := directives, outcome := Outcome.panicked metadataPanicMsg }
    | some nameOpt =>
      let name := nameOpt.getD "Program"
      let warn := Directive.warning (name ++ " built at " ++ current_datetime env)
      let er := execute_build_cmd env.exec
      let printed := directives ++ [warn] ++ er.printed
      match er.behavior with
      | ExecBehavior.retErr _ =>
        { printed := printed, outcome := Outcome.panicked (buildFailMsg name) }
      | ExecBehavior.panicked m =>
        { printed := printed, outcome := Outcome.panicked m }
      | ExecBehavior.retOk code =>
        if code = 0 then { printed := printed, outcome := Outcome.ok () }
        else { printed := printed, outcome := Outcome.panicked (buildFailMsg name) }

/-- One observable event of an `execute_build_cmd` run: child creation,
one relayed (already tagged) line on either parent stream, the join of the
stdout drain thread, and the single `Child::wait`. -/
inductive Event where
  | spawned
  | relayedOut (line : String)
  | relayedErr (line : String)
  | joinedStdout
  | waited
deriving DecidableEq, Repr

/-- Project an event to the line it relayed on the parent's stdout. -/
def outLine : Event → Option String
  | Event.relayedOut s => some s
  | _ => none

/-- Project an event to the line it relayed on the parent's stderr. -/
def errLine : Event → Option String
  | Event.relayedErr s => some s
  | _ => none

/-- Is this event a relay of a subprocess output line? -/
def isRelay : Event → Bool
  | Event.relayedOut _ => true
  | Event.relayedErr _ => true
  | _ => false

/-- `Weave as bs cs`: `cs` is an interleaving of `as` and `bs`, keeping the
relative order within each of the two. This is exactly the scheduling
freedom between the stdout drain thread and the stderr drain on the
calling thread. -/
inductive Weave : List Event → List Event → List Event → Prop where
  | nil : Weave [] [] []
  | left : ∀ {x : Event} {as bs cs : List Event},
      Weave as bs cs → Weave (x :: as) bs (x :: cs)
  | right : ∀ {x : Event} {as bs cs : List Event},
      Weave as bs cs → Weave as (x :: bs) (x :: cs)

/-- The traces `execute_build_cmd` can produce. The skip and spawn-failure
cases produce no events. A run whose two drains both finish cleanly
interleaves the per-stream relays arbitrarily, then joins, then waits. A
read error on stderr panics the calling thread after relaying the error's
predecessors (the stdout thread having relayed some prefix of its lines);
a panic confined to the stdout thread surfaces when the join's result is
unwrapped, after stderr was fully drained — in either case no wait occurs. -/
inductive ExecTrace (env : ExecEnv) : List Event → Prop where
  | skip :
      isClippyDriver env.rustcWorkspaceWrapper = true →
      ExecTrace env []
  | spawnFail : ∀ (e : String),
      isClippyDriver env.rustcWorkspaceWrapper = false →
      env.spawnResult = Except.error e →
      ExecTrace env []
  | run : ∀ (c : Child) (mix : List Event),
      isClippyDriver env.rustcWorkspaceWrapper = false →
      env.spawnResult = Except.ok c →
      (drainStream c.stderrLines).2 = none →
      (drainStream c.stdoutLines).2 = none →
      Weave ((drainStream c.stdoutLines).1.map Event.relayedOut)
            ((drainStream c.stderrLines).1.map Event.relayedErr) mix →
      ExecTrace env (Event.spawned :: mix ++ [Event.joinedStdout, Event.waited])
  | errAbort : ∀ (c : Child) (outPre mix : List Event),
      isClippyDriver env.rustcWorkspaceWrapper = false →
      env.spawnResult = Except.ok c →
      (drainStream c.stderrLines).2.isSome →
      (∃ pre, List.IsPrefix pre (drainStream c.stdoutLines).1 ∧
        outPre = pre.map Event.relayedOut) →
      Weave outPre ((drainStream c.stderrLines).1.map Event.relayedErr) mix →
      ExecTrace env (Event.spawned :: mix)
  | outAbort : ∀ (c : Child) (mix : List Event),
      isClippyDriver env.rustcWorkspaceWrapper = false →
      env.spawnResult = Except.ok c →
      (drainStream c.stderrLines).2 = none →
      (drainStream c.stdoutLines).2.isSome →
      Weave ((drainStream c.stdoutLines).1.map Event.relayedOut)
            ((drainStream c.stderrLines).1.map Event.relayedErr) mix →
      ExecTrace env (Event.spawned :: mix ++ [Event.joinedStdout])

/-- The outcome `build_program` derives from `execute_build_cmd`'s result
once the display name is fixed: an `Err` return or a non-zero exit panics
with `buildFailMsg name`, a panic propagates, exit 0 succeeds. -/
def outcomeOfExec (name : String) (er : ExecResult) : Outcome Unit :=
  match er.behavior with
  | ExecBehavior.retErr _ => Outcome.panicked (buildFailMsg name)
  | ExecBehavior.panicked m => Outcome.panicked m
  | ExecBehavior.retOk code =>
    if code = 0 then Outcome.ok () else Outcome.panicked (buildFailMsg name)

/-- Fixture: an absolute anchor root. -/
def wRoot : Path := { isAbsolute := true, components := ["root"] }

/-- Fixture: a relative program location. -/
def wRel : Path := { isAbsolute := false, components := ["prog"] }

/-- Fixture: an absolute program location. -/
def wAbs : Path := { isAbsolute := true, components := ["opt", "prog"] }

/-- Fixture: a child that writes one clean line on each stream and exits 0. -/
def wChildOk : Child :=
  { stdoutLines := [Except.ok "a"], stderrLines := [Except.ok "b"],
    waitResult := Except.ok 0 }

/-- Fixture: an exec environment that spawns `wChildOk`, clippy absent. -/
def wExecOk : ExecEnv :=
  { rustcWorkspaceWrapper := none, spawnResult := Except.ok wChildOk }

/-- Fixture: a fully healthy build environment. -/
def wEnv : BuildEnv :=
  { cargoManifestDir := some wRoot, canonicalize := some,
    metadataExec := fun _ => some (some "demo"), exec := wExecOk,
    now := "2024-01-01 12:00:00" }

/-- Fixture: an exec environment in which clippy drives the compilation. -/
def wExecSkip : ExecEnv :=
  { rustcWorkspaceWrapper := some "clippy-driver", spawnResult := Except.error "unused" }

/-- Fixture: a child whose stdout stream hits a read error after one clean
line, while stderr stays clean. -/
def wChildOutErr : Child :=
  { stdoutLines := [Except.ok "a", Except.error "boom"],
    stderrLines := [Except.ok "b"], waitResult := Except.ok 0 }

/-- Fixture: the healthy build environment except that the metadata
command fails. -/
def wEnvMetaFail : BuildEnv := { wEnv with metadataExec := fun _ => none }

/-- Fixture: the healthy build environment except that the (successful)
metadata lookup finds no root package. -/
def wEnvNoRootPkg : BuildEnv := { wEnv with metadataExec := fun _ => some none }

/-- Fixture: an exec environment spawning `wChildOutErr`. -/
def wExecOutErr : ExecEnv :=
  { rustcWorkspaceWrapper := none, spawnResult := Except.ok wChildOutErr }

/-- Fixture: the healthy build environment but spawning `wChildOutErr`. -/
def wEnvOutErr : BuildEnv := { wEnv with exec := wExecOutErr }

/-- Fixture: one concrete run trace of `wExecOk`: spawn, the two relays,
join, wait. -/
def wTrace : List Event :=
  [Event.spawned, Event.relayedOut (tagLine "a"), Event.relayedErr (tagLine "b"),
   Event.joinedStdout, Event.waited]

/-- An interleaving contains exactly the elements of its two sources. -/
theorem Weave.mem {as bs cs : List Event} (w : Weave as bs cs) :
    ∀ x, x ∈ cs → x ∈ as ∨ x ∈ bs := by
  induction w with
  | nil => intro x hx; cases hx
  | left _ ih =>
    intro x hx
    rcases List.mem_cons.mp hx with h | h
    · exact Or.inl (h ▸ List.mem_cons_self _ _)
    · rcases ih x h with h' | h'
      · exact Or.inl (List.mem_cons_of_mem _ h')
      · exact Or.inr h'
  | right _ ih =>
    intro x hx
    rcases List.mem_cons.mp hx with h | h
    · exact Or.inr (h ▸ List.mem_cons_self _ _)
    · rcases ih x h with h' | h'
      · exact Or.inl h'
      · exact Or.inr (List.mem_cons_of_mem _ h')

/-- Counting through an interleaving adds the two sources' counts. -/
theorem Weave.countP (p : Event → Bool) {as bs cs : List Event} (w : Weave as bs cs) :
    cs.countP p = as.countP p + bs.countP p := by
  induction w with
  | nil => rfl
  | left _ ih => simp [List.countP_cons, ih]; omega
  | right _ ih => simp [List.countP_cons, ih]; omega

/-- Filtering an interleaving with a projection that ignores the right
source recovers exactly the left source's projection. -/
theorem Weave.filterMap_left (f : Event → Option String) {as bs cs : List Event}
    (w : Weave as bs cs) (hb : ∀ b ∈ bs, f b = none) :
    cs.filterMap f = as.filterMap f := by
  induction w with
  | nil => rfl
  | left _ ih =>
    simp only [List.filterMap_cons]
    rw [ih fun b hb' => hb b hb']
  | right w ih =>
    simp only [List.filterMap_cons]
    rw [hb _ (List.mem_cons_self _ _), ih fun b hb' => hb b (List.mem_cons_of_mem _ hb')]

/-- Filtering an interleaving with a projection that ignores the left
source recovers exactly the right source's projection. -/
theorem Weave.filterMap_right (f : Event → Option String) {as bs cs : List Event}
    (w : Weave as bs cs) (ha : ∀ a ∈ as, f a = none) :
    cs.filterMap f = bs.filterMap f := by
  induction w with
  | nil => rfl
  | left w ih =>
    simp only [List.filterMap_cons]
    rw [ha _ (List.mem_cons_self _ _), ih fun a ha' => ha a (List.mem_cons_of_mem _ ha')]
  | right _ ih =>
    simp only [List.filterMap_cons]
    rw [ih fun a ha' => ha a ha']

/-- Draining a stream of clean reads relays every line, tagged, in order,
and hits no panic. -/
theorem drainStream_ok (S : List String) :
    drainStream (S.map Except.ok) = (S.map tagLine, none) := by
  induction S with
  | nil => rfl
  | cons s S ih => simp [drainStream, ih]

/-- Draining a stream that contains a failed read hits a panic. -/
theorem drainStream_err {ls : List StreamLine} {e : String}
    (h : Except.error e ∈ ls) : (drainStream ls).2.isSome := by
  induction ls with
  | nil => cases h
  | cons l ls ih =>
    rcases List.mem_cons.mp h with h' | h'
    · subst h'; simp [drainStream]
    · cases l with
      | error e' => simp [drainStream]
      | ok s => simpa [drainStream] using ih h'

/-- The two panic messages that can arise before/at resolution differ: the
`CARGO_MANIFEST_DIR` unwrap message is not the resolution-failure message,
whatever the input path renders to. -/
theorem envVarPanicMsg_ne_resolutionFailMsg (x : String) :
    envVarPanicMsg ≠ resolutionFailMsg x := by
  intro h
  have hd : envVarPanicMsg.data.head? = (resolutionFailMsg x).data.head? := by rw [h]
  have h1 : envVarPanicMsg.data.head? = some 'c' := rfl
  have h2 : (resolutionFailMsg x).data.head? = some 'F' := by
    show ((("Failed to get the absolute path of the program directory `" ++ x) ++
      "`.").data.head?) = some 'F'
    rw [String.data_append, String.data_append]
    rfl
  rw [h1, h2] at hd
  exact absurd (Option.some.inj hd) (by decide)

/-- Claim C6: for a relative input, `get_absolute_dir_of_program` returns
the canonicalization of the anchor root joined with the input; for an
absolute input, the canonicalization of the input directly. -/
theorem resolve_relative_and_absolute (env : BuildEnv) (path : Path) :
    (path.isAbsolute = true →
      get_absolute_dir_of_program env path = Outcome.ok (env.canonicalize path)) ∧
    (∀ root, path.isAbsolute = false → env.cargoManifestDir = some root →
      get_absolute_dir_of_program env path =
        Outcome.ok (env.canonicalize (Path.join root path))) := by
  constructor
  · intro h
    simp [get_absolute_dir_of_program, h]
  · intro root h hroot
    simp [get_absolute_dir_of_program, h, current_dir, hroot]

/-- Witness for C6 at a concrete relative and a concrete absolute input. -/
theorem resolve_relative_and_absolute_witness :
    get_absolute_dir_of_program wEnv wRel =
      Outcome.ok (some { isAbsolute := true, components := ["root", "prog"] }) ∧
    get_absolute_dir_of_program wEnv wAbs = Outcome.ok (some wAbs) :=
  ⟨(resolve_relative_and_absolute wEnv wRel).2 wRoot rfl rfl,
   (resolve_relative_and_absolute wEnv wAbs).1 rfl⟩

/-- Claim C7: when canonicalization fails — in relative or absolute form —
resolution fails, and `build_program` panics with a message that names the
original input path. -/
theorem resolution_failure_fatal (env : BuildEnv) (path : Path)
    (h : (path.isAbsolute = true ∧ env.canonicalize path = none) ∨
         (∃ root, path.isAbsolute = false ∧ env.cargoManifestDir = some root ∧
            env.canonicalize (Path.join root path) = none)) :
    get_absolute_dir_of_program env path = Outcome.ok none ∧
    (build_program env path).outcome = Outcome.panicked (resolutionFailMsg path.render) ∧
    ∃ a b, resolutionFailMsg path.render = a ++ path.render ++ b := by
  have hres : get_absolute_dir_of_program env path = Outcome.ok none := by
    rcases h with ⟨habs, hc⟩ | ⟨root, hrel, hroot, hc⟩
    · simp [get_absolute_dir_of_program, habs, hc]
    · simp [get_absolute_dir_of_program, hrel, current_dir, hroot, hc]
  refine ⟨hres, ?_, ?_⟩
  · simp [build_program, hres]
  · exact ⟨"Failed to get the absolute path of the program directory `", "`.", rfl⟩

/-- Witness for C7: a concrete environment whose canonicalization always
fails, exercised at a relative input. -/
theorem resolution_failure_fatal_witness :
    get_absolute_dir_of_program { wEnv with canonicalize := fun _ => none } wRel =
      Outcome.ok none ∧
    (build_program { wEnv with canonicalize := fun _ => none } wRel).outcome =
      Outcome.panicked (resolutionFailMsg wRel.render) ∧
    ∃ a b, resolutionFailMsg wRel.render = a ++ wRel.render ++ b :=
  resolution_failure_fatal { wEnv with canonicalize := fun _ => none } wRel
    (Or.inr ⟨wRoot, rfl, rfl, rfl⟩)

/-- Claim C10: with a relative input and `CARGO_MANIFEST_DIR` unset,
`build_program` panics with the env-var unwrap message — for every
canonicalization function, hence before any canonicalization, and not with
the resolution-error message; with an absolute input the variable is never
read. -/
theorem missing_anchor_root_panics (env : BuildEnv) (path : Path) :
    (path.isAbsolute = false → env.cargoManifestDir = none →
      get_absolute_dir_of_program env path = Outcome.panicked envVarPanicMsg ∧
      (build_program env path).outcome = Outcome.panicked envVarPanicMsg ∧
      (∀ f, get_absolute_dir_of_program { env with canonicalize := f } path =
        Outcome.panicked envVarPanicMsg) ∧
      envVarPanicMsg ≠ resolutionFailMsg path.render) ∧
    (path.isAbsolute = true → ∀ v,
      get_absolute_dir_of_program { env with cargoManifestDir := v } path =
        Outcome.ok (env.canonicalize path)) := by
  constructor
  · intro hrel hnone
    have hres : ∀ f, get_absolute_dir_of_program { env with canonicalize := f } path =
        Outcome.panicked envVarPanicMsg := by
      intro f
      simp [get_absolute_dir_of_program, hrel, current_dir, hnone]
    have hres' : get_absolute_dir_of_program env path = Outcome.panicked envVarPanicMsg := by
      simp [get_absolute_dir_of_program, hrel, current_dir, hnone]
    refine ⟨hres', ?_, hres, envVarPanicMsg_ne_resolutionFailMsg _⟩
    simp [build_program, hres']
  · intro habs v
    simp [get_absolute_dir_of_program, habs]

/-- Witness for C10 at concrete relative and absolute inputs, with the
variable removed from the environment. -/
theorem missing_anchor_root_panics_witness :
    ((build_program { wEnv with cargoManifestDir := none } wRel).outcome =
      Outcome.panicked envVarPanicMsg) ∧
    (get_absolute_dir_of_program
        { wEnv with cargoManifestDir := none } wAbs =
      Outcome.ok (some wAbs)) :=
  ⟨((missing_anchor_root_panics { wEnv with cargoManifestDir := none } wRel).1
      rfl rfl).2.1,
   (missing_anchor_root_panics { wEnv with cargoManifestDir := none } wAbs).2
      rfl none⟩

/-- Filtering the stdout projection out of a pure stdout-relay block
recovers the relayed lines. -/
theorem filterMap_outLine_map_relayedOut (l : List String) :
    (l.map Event.relayedOut).filterMap outLine = l := by
  induction l with
  | nil => rfl
  | cons a l ih => simp [outLine, ih]

/-- Filtering the stderr projection out of a pure stderr-relay block
recovers the relayed lines. -/
theorem filterMap_errLine_map_relayedErr (l : List String) :
    (l.map Event.relayedErr).filterMap errLine = l := by
  induction l with
  | nil => rfl
  | cons a l ih => simp [errLine, ih]

/-- Every stdout-relay event counts as a relay. -/
theorem countP_isRelay_map_relayedOut (l : List String) :
    (l.map Event.relayedOut).countP isRelay = l.length := by
  induction l with
  | nil => rfl
  | cons a l ih => simp [List.countP_cons, isRelay, ih]

/-- Every stderr-relay event counts as a relay. -/
theorem countP_isRelay_map_relayedErr (l : List String) :
    (l.map Event.relayedErr).countP isRelay = l.length := by
  induction l with
  | nil => rfl
  | cons a l ih => simp [List.countP_cons, isRelay, ih]

/-- In any interleaving of the two per-stream relay blocks, each stream's
projection comes back complete and in order, and the relay count is the
sum of the two stream lengths. -/
theorem weave_relay_projections (A B : List String) (mix : List Event)
    (w : Weave (A.map Event.relayedOut) (B.map Event.relayedErr) mix) :
    mix.filterMap outLine = A ∧ mix.filterMap errLine = B ∧
    mix.countP isRelay = A.length + B.length := by
  refine ⟨?_, ?_, ?_⟩
  · rw [Weave.filterMap_left outLine w ?_, filterMap_outLine_map_relayedOut]
    intro b hb
    rcases List.mem_map.mp hb with ⟨s, _, rfl⟩
    rfl
  · rw [Weave.filterMap_right errLine w ?_, filterMap_errLine_map_relayedErr]
    intro a ha
    rcases List.mem_map.mp ha with ⟨s, _, rfl⟩
    rfl
  · rw [Weave.countP isRelay w, countP_isRelay_map_relayedOut,
      countP_isRelay_map_relayedErr]

/-- No relay event of either stream is the `waited` event. -/
theorem waited_not_mem_weave {A B : List String} {mix : List Event}
    (w : Weave (A.map Event.relayedOut) (B.map Event.relayedErr) mix) :
    Event.waited ∉ mix := by
  intro hmem
  rcases w.mem _ hmem with h | h
  · rcases List.mem_map.mp h with ⟨s, _, hs⟩
    exact Event.noConfusion hs
  · rcases List.mem_map.mp h with ⟨s, _, hs⟩
    exact Event.noConfusion hs

/-- The fixture trace is a trace of the healthy exec environment. -/
theorem wTrace_valid : ExecTrace wExecOk wTrace := by
  have w : Weave [Event.relayedOut (tagLine "a")] [Event.relayedErr (tagLine "b")]
      [Event.relayedOut (tagLine "a"), Event.relayedErr (tagLine "b")] :=
    Weave.left (Weave.right Weave.nil)
  show ExecTrace wExecOk
    (Event.spawned :: [Event.relayedOut (tagLine "a"), Event.relayedErr (tagLine "b")] ++
      [Event.joinedStdout, Event.waited])
  exact ExecTrace.run wChildOk
    [Event.relayedOut (tagLine "a"), Event.relayedErr (tagLine "b")] rfl rfl rfl rfl w

/-- Claim C2: for a subprocess writing the clean lines `S` on stdout and
`E` on stderr, every trace of `execute_build_cmd` relays exactly `S`
(tagged, in order) to the parent's stdout and exactly `E` (tagged, in
order) to the parent's stderr, with `S.length + E.length` relay events in
total — nothing duplicated or dropped. -/
theorem relay_complete_ordered (env : ExecEnv) (c : Child) (S E : List String)
    (hck : isClippyDriver env.rustcWorkspaceWrapper = false)
    (hsp : env.spawnResult = Except.ok c)
    (hS : c.stdoutLines = S.map Except.ok)
    (hE : c.stderrLines = E.map Except.ok)
    (tr : List Event) (htr : ExecTrace env tr) :
    tr.filterMap outLine = S.map tagLine ∧
    tr.filterMap errLine = E.map tagLine ∧
    tr.countP isRelay = S.length + E.length := by
  cases htr with
  | skip hck' => rw [hck'] at hck; exact Bool.noConfusion hck
  | spawnFail e _ hsp' => rw [hsp] at hsp'; exact Except.noConfusion hsp'
  | run c' mix hck' hsp' hse hso w =>
    rw [hsp] at hsp'
    cases Except.ok.inj hsp'
    rw [hS, drainStream_ok] at hso w
    rw [hE, drainStream_ok] at hse w
    obtain ⟨h1, h2, h3⟩ := weave_relay_projections (S.map tagLine) (E.map tagLine) mix w
    refine ⟨?_, ?_, ?_⟩
    · simp [List.filterMap_cons, List.filterMap_append, outLine, h1]
    · simp [List.filterMap_cons, List.filterMap_append, errLine, h2]
    · simp [List.countP_cons, List.countP_append, isRelay, h3]
  | errAbort c' outPre mix hck' hsp' hse hpre w =>
    rw [hsp] at hsp'
    cases Except.ok.inj hsp'
    rw [hE, drainStream_ok] at hse
    exact absurd hse (by simp)
  | outAbort c' mix hck' hsp' hse hso w =>
    rw [hsp] at hsp'
    cases Except.ok.inj hsp'
    rw [hS, drainStream_ok] at hso
    exact absurd hso (by simp)

/-- Witness for C2: the concrete trace of a child writing `"a"` on stdout
and `"b"` on stderr. -/
theorem relay_complete_ordered_witness :
    wTrace.filterMap outLine = ["a"].map tagLine ∧
    wTrace.filterMap errLine = ["b"].map tagLine ∧
    wTrace.countP isRelay = ["a"].length + ["b"].length :=
  relay_complete_ordered wExecOk wChildOk ["a"] ["b"] rfl rfl rfl rfl wTrace wTrace_valid

/-- Claim C3: in every non-skipped execution whose spawn succeeds and whose
drains hit no read error, the trace waits exactly once, as its very last
event, strictly after the stdout drain thread was joined and after both
streams were relayed completely. -/
theorem wait_once_after_drains (env : ExecEnv) (c : Child) (S E : List String)
    (hck : isClippyDriver env.rustcWorkspaceWrapper = false)
    (hsp : env.spawnResult = Except.ok c)
    (hS : c.stdoutLines = S.map Except.ok)
    (hE : c.stderrLines = E.map Except.ok)
    (tr : List Event) (htr : ExecTrace env tr) :
    ∃ pre, tr = pre ++ [Event.waited] ∧ Event.waited ∉ pre ∧
      tr.count Event.waited = 1 ∧
      pre.getLast? = some Event.joinedStdout ∧
      pre.filterMap outLine = S.map tagLine ∧
      pre.filterMap errLine = E.map tagLine := by
  cases htr with
  | skip hck' => rw [hck'] at hck; exact Bool.noConfusion hck
  | spawnFail e _ hsp' => rw [hsp] at hsp'; exact Except.noConfusion hsp'
  | run c' mix hck' hsp' hse hso w =>
    rw [hsp] at hsp'
    cases Except.ok.inj hsp'
    rw [hS, drainStream_ok] at hso w
    rw [hE, drainStream_ok] at hse w
    obtain ⟨h1, h2, _⟩ := weave_relay_projections (S.map tagLine) (E.map tagLine) mix w
    refine ⟨Event.spawned :: (mix ++ [Event.joinedStdout]), by simp, ?_, ?_, ?_, ?_, ?_⟩
    · intro hmem
      rcases List.mem_cons.mp hmem with h | h
      · exact Event.noConfusion h
      · rcases List.mem_append.mp h with h | h
        · exact waited_not_mem_weave w h
        · rcases List.mem_singleton.mp h with h
          exact Event.noConfusion h
    · have hpre : Event.waited ∉ Event.spawned :: (mix ++ [Event.joinedStdout]) := by
        intro hmem
        rcases List.mem_cons.mp hmem with h | h
        · exact Event.noConfusion h
        · rcases List.mem_append.mp h with h | h
          · exact waited_not_mem_weave w h
          · rcases List.mem_singleton.mp h with h
            exact Event.noConfusion h
      have htr' : (Event.spawned :: mix ++ [Event.joinedStdout, Event.waited]) =
          (Event.spawned :: (mix ++ [Event.joinedStdout])) ++ [Event.waited] := by simp
      rw [htr', List.count_append, List.count_eq_zero.mpr hpre]
      rfl
    · show (Event.spawned :: (mix ++ [Event.joinedStdout])).getLast? =
        some Event.joinedStdout
      rw [show Event.spawned :: (mix ++ [Event.joinedStdout]) =
        (Event.spawned :: mix) ++ [Event.joinedStdout] from rfl]
      exact List.getLast?_concat _
    · simp [List.filterMap_cons, List.filterMap_append, outLine, h1]
    · simp [List.filterMap_cons, List.filterMap_append, errLine, h2]
  | errAbort c' outPre mix hck' hsp' hse hpre w =>
    rw [hsp] at hsp'
    cases Except.ok.inj hsp'
    rw [hE, drainStream_ok] at hse
    exact absurd hse (by simp)
  | outAbort c' mix hck' hsp' hse hso w =>
    rw [hsp] at hsp'
    cases Except.ok.inj hsp'
    rw [hS, drainStream_ok] at hso
    exact absurd hso (by simp)

/-- Witness for C3 on the concrete fixture trace. -/
theorem wait_once_after_drains_witness :
    ∃ pre, wTrace = pre ++ [Event.waited] ∧ Event.waited ∉ pre ∧
      wTrace.count Event.waited = 1 ∧
      pre.getLast? = some Event.joinedStdout ∧
      pre.filterMap outLine = ["a"].map tagLine ∧
      pre.filterMap errLine = ["b"].map tagLine :=
  wait_once_after_drains wExecOk wChildOk ["a"] ["b"] rfl rfl rfl rfl wTrace wTrace_valid

/-- Claim C4: when `RUSTC_WORKSPACE_WRAPPER` indicates a clippy-driver
invocation, `execute_build_cmd` prints the informational skip notice,
reports success (`Ok` with exit code 0), and produces no events at all —
in particular it never spawns a subprocess. -/
theorem clippy_skip (env : ExecEnv)
    (h : isClippyDriver env.rustcWorkspaceWrapper = true) :
    (execute_build_cmd env).printed = [skipNotice] ∧
    (execute_build_cmd env).behavior = ExecBehavior.retOk 0 ∧
    ∀ tr, ExecTrace env tr → tr = [] ∧ Event.spawned ∉ tr := by
  refine ⟨by simp [execute_build_cmd, h], by simp [execute_build_cmd, h], ?_⟩
  intro tr htr
  cases htr with
  | skip _ => exact ⟨rfl, by simp⟩
  | spawnFail e hck _ => rw [h] at hck; exact Bool.noConfusion hck
  | run c mix hck _ _ _ _ => rw [h] at hck; exact Bool.noConfusion hck
  | errAbort c outPre mix hck _ _ _ _ => rw [h] at hck; exact Bool.noConfusion hck
  | outAbort c mix hck _ _ _ _ => rw [h] at hck; exact Bool.noConfusion hck

/-- Witness for C4 at a concrete environment whose wrapper variable is the
clippy driver. -/
theorem clippy_skip_witness :
    (execute_build_cmd wExecSkip).printed = [skipNotice] ∧
    (execute_build_cmd wExecSkip).behavior = ExecBehavior.retOk 0 ∧
    ∀ tr, ExecTrace wExecSkip tr → tr = [] ∧ Event.spawned ∉ tr :=
  clippy_skip wExecSkip (by decide)

/-- Claim C9: a read error on either stream — also on the stdout stream,
the one drained by the concurrent thread — makes `execute_build_cmd`
panic, and that panic propagates through `build_program`: the invocation
aborts instead of silently truncating output. -/
theorem stream_read_error_fatal (benv : BuildEnv) (path dir : Path) (c : Child)
    (nameOpt : Option String)
    (hres : get_absolute_dir_of_program benv path = Outcome.ok (some dir))
    (hmeta : benv.metadataExec (Path.join dir manifestRel) = some nameOpt)
    (hck : isClippyDriver benv.exec.rustcWorkspaceWrapper = false)
    (hsp : benv.exec.spawnResult = Except.ok c)
    (herr : (∃ e, Except.error e ∈ c.stdoutLines) ∨
            (∃ e, Except.error e ∈ c.stderrLines)) :
    ∃ m, (execute_build_cmd benv.exec).behavior = ExecBehavior.panicked m ∧
      (build_program benv path).outcome = Outcome.panicked m := by
  have hb : ∃ m, (execute_build_cmd benv.exec).behavior = ExecBehavior.panicked m := by
    cases hse : (drainStream c.stderrLines).2 with
    | some m => exact ⟨m, by simp [execute_build_cmd, hck, hsp, hse]⟩
    | none =>
      rcases herr with ⟨e, he⟩ | ⟨e, he⟩
      · rcases Option.isSome_iff_exists.mp (drainStream_err he) with ⟨m', hm'⟩
        exact ⟨joinPanicMsg, by simp [execute_build_cmd, hck, hsp, hse, hm']⟩
      · have := drainStream_err he
        rw [hse] at this
        exact absurd this (by simp)
  rcases hb with ⟨m, hm⟩
  refine ⟨m, hm, ?_⟩
  simp [build_program, hres, hmeta, hm]

/-- Witness for C9: a child whose stdout stream fails mid-read while
stderr stays clean — exactly the concurrent-thread failure case. -/
theorem stream_read_error_fatal_witness :
    ∃ m, (execute_build_cmd wEnvOutErr.exec).behavior = ExecBehavior.panicked m ∧
      (build_program wEnvOutErr wRel).outcome = Outcome.panicked m :=
  stream_read_error_fatal wEnvOutErr wRel (Path.join wRoot wRel) wChildOutErr
    (some "demo") rfl rfl rfl rfl (Or.inl ⟨"boom", by simp [wChildOutErr]⟩)

/-- In a non-skipped run, a failed spawn is returned as that error before
any stream handling. -/
theorem exec_behavior_spawn_err (env : ExecEnv) (e : String)
    (hck : isClippyDriver env.rustcWorkspaceWrapper = false)
    (hsp : env.spawnResult = Except.error e) :
    (execute_build_cmd env).behavior = ExecBehavior.retErr e := by
  simp [execute_build_cmd, hck, hsp]

/-- In a non-skipped run with a successful spawn and clean drains, a wait
failure is returned as that error. -/
theorem exec_behavior_wait_err (env : ExecEnv) (c : Child) (e : String)
    (hck : isClippyDriver env.rustcWorkspaceWrapper = false)
    (hsp : env.spawnResult = Except.ok c)
    (h1 : (drainStream c.stdoutLines).2 = none)
    (h2 : (drainStream c.stderrLines).2 = none)
    (hwr : c.waitResult = Except.error e) :
    (execute_build_cmd env).behavior = ExecBehavior.retErr e := by
  simp [execute_build_cmd, hck, hsp, h1, h2, hwr]

/-- In a non-skipped run with a successful spawn and clean drains, the
subprocess's exit code is returned. -/
theorem exec_behavior_wait_ok (env : ExecEnv) (c : Child) (k : Nat)
    (hck : isClippyDriver env.rustcWorkspaceWrapper = false)
    (hsp : env.spawnResult = Except.ok c)
    (h1 : (drainStream c.stdoutLines).2 = none)
    (h2 : (drainStream c.stderrLines).2 = none)
    (hwr : c.waitResult = Except.ok k) :
    (execute_build_cmd env).behavior = ExecBehavior.retOk k := by
  simp [execute_build_cmd, hck, hsp, h1, h2, hwr]

/-- Once resolution and the metadata lookup have gone through,
`build_program`'s outcome is `outcomeOfExec` of the subprocess run. -/
theorem build_program_outcome_eq (benv : BuildEnv) (path dir : Path)
    (nameOpt : Option String)
    (hres : get_absolute_dir_of_program benv path = Outcome.ok (some dir))
    (hmeta : benv.metadataExec (Path.join dir manifestRel) = some nameOpt) :
    (build_program benv path).outcome =
      outcomeOfExec (nameOpt.getD "Program") (execute_build_cmd benv.exec) := by
  cases hb : (execute_build_cmd benv.exec).behavior with
  | retErr e => simp [build_program, hres, hmeta, outcomeOfExec, hb]
  | retOk k =>
    simp only [build_program, hres, hmeta, outcomeOfExec, hb]
    split <;> rfl
  | panicked m => simp [build_program, hres, hmeta, outcomeOfExec, hb]

/-- Claim C5: with resolution and metadata settled and the run not
skipped and free of stream-read errors, `build_program` succeeds iff the
spawn succeeded and the subprocess exited with status 0; a spawn failure,
a wait failure and a non-zero exit each panic with `buildFailMsg`, a
message that contains the display name. -/
theorem exit_status_policy (benv : BuildEnv) (path dir : Path) (nameOpt : Option String)
    (hres : get_absolute_dir_of_program benv path = Outcome.ok (some dir))
    (hmeta : benv.metadataExec (Path.join dir manifestRel) = some nameOpt)
    (hck : isClippyDriver benv.exec.rustcWorkspaceWrapper = false)
    (hclean : ∀ c, benv.exec.spawnResult = Except.ok c →
      (drainStream c.stdoutLines).2 = none ∧ (drainStream c.stderrLines).2 = none) :
    ((build_program benv path).outcome = Outcome.ok () ↔
      ∃ c, benv.exec.spawnResult = Except.ok c ∧ c.waitResult = Except.ok 0) ∧
    (∀ e, benv.exec.spawnResult = Except.error e →
      (build_program benv path).outcome =
        Outcome.panicked (buildFailMsg (nameOpt.getD "Program"))) ∧
    (∀ c e, benv.exec.spawnResult = Except.ok c → c.waitResult = Except.error e →
      (build_program benv path).outcome =
        Outcome.panicked (buildFailMsg (nameOpt.getD "Program"))) ∧
    (∀ c k, benv.exec.spawnResult = Except.ok c → c.waitResult = Except.ok k → k ≠ 0 →
      (build_program benv path).outcome =
        Outcome.panicked (buildFailMsg (nameOpt.getD "Program"))) ∧
    (∃ a b, buildFailMsg (nameOpt.getD "Program") =
      a ++ (nameOpt.getD "Program") ++ b) := by
  have hout := build_program_outcome_eq benv path dir nameOpt hres hmeta
  refine ⟨?_, ?_, ?_, ?_, ⟨"Failed to build `", "`.", rfl⟩⟩
  · constructor
    · intro hok
      cases hsp : benv.exec.spawnResult with
      | error e =>
        rw [hout, outcomeOfExec, exec_behavior_spawn_err benv.exec e hck hsp] at hok
        exact Outcome.noConfusion hok
      | ok c =>
        obtain ⟨h1, h2⟩ := hclean c hsp
        cases hwr : c.waitResult with
        | error e =>
          rw [hout, outcomeOfExec,
            exec_behavior_wait_err benv.exec c e hck hsp h1 h2 hwr] at hok
          exact Outcome.noConfusion hok
        | ok k =>
          rw [hout, outcomeOfExec,
            exec_behavior_wait_ok benv.exec c k hck hsp h1 h2 hwr] at hok
          by_cases hk : k = 0
          · exact ⟨c, rfl, hk ▸ hwr⟩
          · simp [hk] at hok
    · rintro ⟨c, hsp, hwr⟩
      obtain ⟨h1, h2⟩ := hclean c hsp
      rw [hout, outcomeOfExec, exec_behavior_wait_ok benv.exec c 0 hck hsp h1 h2 hwr]
      rfl
  · intro e hsp
    rw [hout, outcomeOfExec, exec_behavior_spawn_err benv.exec e hck hsp]
  · intro c e hsp hwr
    obtain ⟨h1, h2⟩ := hclean c hsp
    rw [hout, outcomeOfExec, exec_behavior_wait_err benv.exec c e hck hsp h1 h2 hwr]
  · intro c k hsp hwr hk
    obtain ⟨h1, h2⟩ := hclean c hsp
    rw [hout, outcomeOfExec, exec_behavior_wait_ok benv.exec c k hck hsp h1 h2 hwr]
    simp [hk]

/-- Witness for C5 at the healthy fixture environment. -/
theorem exit_status_policy_witness :
    ((build_program wEnv wRel).outcome = Outcome.ok () ↔
      ∃ c, wEnv.exec.spawnResult = Except.ok c ∧ c.waitResult = Except.ok 0) ∧
    (∀ e, wEnv.exec.spawnResult = Except.error e →
      (build_program wEnv wRel).outcome = Outcome.panicked (buildFailMsg "demo")) ∧
    (∀ c e, wEnv.exec.spawnResult = Except.ok c → c.waitResult = Except.error e →
      (build_program wEnv wRel).outcome = Outcome.panicked (buildFailMsg "demo")) ∧
    (∀ c k, wEnv.exec.spawnResult = Except.ok c → c.waitResult = Except.ok k → k ≠ 0 →
      (build_program wEnv wRel).outcome = Outcome.panicked (buildFailMsg "demo")) ∧
    (∃ a b, buildFailMsg "demo" = a ++ "demo" ++ b) :=
  exit_status_policy wEnv wRel (Path.join wRoot wRel) (some "demo") rfl rfl rfl
    (fun c h => by injection h with h; subst h; exact ⟨rfl, rfl⟩)

/-- `execute_build_cmd` prints no rerun directive of its own. -/
theorem execute_build_cmd_printed_no_rerun (env : ExecEnv) :
    (execute_build_cmd env).printed.filter isRerunDirective = [] := by
  unfold execute_build_cmd
  split
  · rfl
  · split
    · rfl
    · split
      · rfl
      · split
        · rfl
        · split <;> rfl

/-- Claim C8: for every resolved directory, `build_program` emits exactly
three rerun-trigger directives — `dir/src`, `dir/Cargo.toml`,
`dir/Cargo.lock` — and each of the three paths is a descendant of the
resolved directory. -/
theorem triggers_exactly_three (env : BuildEnv) (path dir : Path)
    (hres : get_absolute_dir_of_program env path = Outcome.ok (some dir)) :
    (build_program env path).printed.filter isRerunDirective =
      [Directive.rerunIfChanged (Path.join dir srcRel),
       Directive.rerunIfChanged (Path.join dir manifestRel),
       Directive.rerunIfChanged (Path.join dir lockRel)] ∧
    ∀ q ∈ rerunTriggerPaths dir, q.descendantOf dir := by
  constructor
  · cases hmeta : env.metadataExec (Path.join dir manifestRel) with
    | none =>
      simp [build_program, hres, hmeta, rerunTriggerPaths, isRerunDirective]
    | some nameOpt =>
      cases hb : (execute_build_cmd env.exec).behavior with
      | retErr e =>
        simp [build_program, hres, hmeta, hb, rerunTriggerPaths, isRerunDirective,
          List.filter_append, execute_build_cmd_printed_no_rerun]
      | panicked m =>
        simp [build_program, hres, hmeta, hb, rerunTriggerPaths, isRerunDirective,
          List.filter_append, execute_build_cmd_printed_no_rerun]
      | retOk k =>
        simp only [build_program, hres, hmeta, hb]
        split <;>
          simp [rerunTriggerPaths, isRerunDirective, List.filter_append,
            execute_build_cmd_printed_no_rerun]
  · intro q hq
    simp only [rerunTriggerPaths, List.mem_cons, List.not_mem_nil, or_false] at hq
    rcases hq with h | h | h
    · exact h ▸ ⟨rfl, ["src"], by decide, rfl⟩
    · exact h ▸ ⟨rfl, ["Cargo.toml"], by decide, rfl⟩
    · exact h ▸ ⟨rfl, ["Cargo.lock"], by decide, rfl⟩

/-- Witness for C8 at the healthy fixture environment. -/
theorem triggers_exactly_three_witness :
    (build_program wEnv wRel).printed.filter isRerunDirective =
      [Directive.rerunIfChanged (Path.join (Path.join wRoot wRel) srcRel),
       Directive.rerunIfChanged (Path.join (Path.join wRoot wRel) manifestRel),
       Directive.rerunIfChanged (Path.join (Path.join wRoot wRel) lockRel)] ∧
    ∀ q ∈ rerunTriggerPaths (Path.join wRoot wRel),
      q.descendantOf (Path.join wRoot wRel) :=
  triggers_exactly_three wEnv wRel (Path.join wRoot wRel) rfl

/-- Counterexample to C1: a concrete, otherwise fully healthy invocation
whose metadata lookup fails. `build_program` panics on the lookup failure
instead of proceeding under a placeholder name — the lookup failure is
fatal. -/
theorem metadata_failure_aborts_cex :
    (build_program wEnvMetaFail wRel).outcome = Outcome.panicked metadataPanicMsg ∧
    (build_program wEnvMetaFail wRel).outcome ≠ Outcome.ok () :=
  ⟨rfl, by decide⟩

/-- Claim C1 amended: only a metadata lookup that succeeds but finds no
root package is non-fatal — the placeholder name `"Program"` is used in
the built-at notice and the operation proceeds, its outcome decided by the
subprocess run alone; a failure of the metadata command itself aborts
`build_program`. -/
theorem metadata_placeholder_on_missing_root (env : BuildEnv) (path dir : Path)
    (hres : get_absolute_dir_of_program env path = Outcome.ok (some dir))
    (hmeta : env.metadataExec (Path.join dir manifestRel) = some none) :
    (build_program env path).printed =
      (rerunTriggerPaths dir).map Directive.rerunIfChanged ++
        [Directive.warning ("Program" ++ " built at " ++ current_datetime env)] ++
        (execute_build_cmd env.exec).printed ∧
    (build_program env path).outcome =
      outcomeOfExec "Program" (execute_build_cmd env.exec) := by
  have h2 := build_program_outcome_eq env path dir none hres hmeta
  refine ⟨?_, h2⟩
  cases hb : (execute_build_cmd env.exec).behavior with
  | retErr e => simp [build_program, hres, hmeta, hb, current_datetime]
  | panicked m => simp [build_program, hres, hmeta, hb, current_datetime]
  | retOk k =>
    simp only [build_program, hres, hmeta, hb]
    split <;> simp [current_datetime]

/-- Witness for the amended C1 at a concrete environment whose metadata
lookup succeeds without a root package. -/
theorem metadata_placeholder_on_missing_root_witness :
    (build_program wEnvNoRootPkg wRel).printed =
      (rerunTriggerPaths (Path.join wRoot wRel)).map Directive.rerunIfChanged ++
        [Directive.warning ("Program" ++ " built at " ++ current_datetime wEnvNoRootPkg)] ++
        (execute_build_cmd wEnvNoRootPkg.exec).printed ∧
    (build_program wEnvNoRootPkg wRel).outcome =
      outcomeOfExec "Program" (execute_build_cmd wEnvNoRootPkg.exec) :=
  metadata_placeholder_on_missing_root wEnvNoRootPkg wRel (Path.join wRoot wRel) rfl rfl

end SP1Helper
